import Mathlib

/-
  Shallow embedding of the System Builder widget (src/assets/system-builder.js).

  The widget keeps its state in three fields (`activeHarnessModel`,
  `activeAccessories`, `selectedProducts`) plus the DOM grids that the
  handlers read back.  We model the two grids explicitly, since
  `handleHarnessModelChipClick` and `removeAccessoryCards` consult them
  when deciding which selections to delete:
    - `modelGrid`     : the variant ids of the product cards currently in
                        `[data-harness-models-grid]` (written by
                        `displayHarnessModels`);
    - `accessoryGrid` : the (accessory-group handle, variant id) pairs of
                        the cards in `[data-harness-accessories-grid]`
                        (written by `addAccessoryCards`).
  `selectedProducts` is a JS object keyed by variant id; we model it as an
  association list in insertion order, which is the iteration order of
  `Object.entries` used by the source.
-/

namespace SystemBuilder

/-- One entry of the embedded catalog JSON: `id`, `price` (minor units),
`available`. -/
structure Variant where
  id : String
  price : Nat
  available : Bool
deriving DecidableEq

/-- A `harness_type` record: products linked to harness models. -/
structure HarnessType where
  modelHandles : List String
  variants : List Variant
deriving DecidableEq

/-- A harness accessory group: its chip handle, the models it is linked to
(`harnessTypeHandles`; empty means linked to every model), and its variants. -/
structure HarnessAccessory where
  handle : String
  harnessTypeHandles : List String
  variants : List Variant
deriving DecidableEq

/-- The catalog snapshot parsed by `loadData`. -/
structure Data where
  harnessTypes : List HarnessType
  harnessAccessories : List HarnessAccessory
  accessories : List Variant
deriving DecidableEq

/-- A selected product as stored in `this.selectedProducts[variantId]`:
the denormalized catalog fields plus `productType` and `quantity`. -/
structure Product where
  id : String
  price : Nat
  available : Bool
  productType : String
  quantity : Nat
deriving DecidableEq

/-- The widget state: the three state fields of the component plus the two
grids read back from the DOM. -/
structure Store where
  activeHarnessModel : Option String
  activeAccessories : List String
  selectedProducts : List (String × Product)
  modelGrid : List String
  accessoryGrid : List (String × String)
deriving DecidableEq

/-- State at widget mount: everything empty. -/
def emptyStore : Store := ⟨none, [], [], [], []⟩

/-- Reading `this.selectedProducts[k]`. -/
def lookupP (ps : List (String × Product)) (k : String) : Option Product :=
  (ps.find? fun e => e.1 == k).map (·.2)

/-- The statement `delete this.selectedProducts[k]`. -/
def eraseKey (ps : List (String × Product)) (k : String) : List (String × Product) :=
  ps.filter fun e => e.1 != k

/-- Model grid contents set by `displayHarnessModels`: variant ids of all `harness_type` entries whose
`modelHandles` include the selected model handle. -/
def modelVariantIds (d : Data) (m : String) : List String :=
  (((d.harnessTypes.filter fun ht => ht.modelHandles.contains m).map (·.variants)).flatten).map (·.id)

/-- Lookup `this.data.harnessAccessories.find(a => a.handle === handle)`. -/
def findAccessory (d : Data) (h : String) : Option HarnessAccessory :=
  d.harnessAccessories.find? fun a => a.handle == h

/-- The variant ids of one accessory group (empty when the handle is unknown). -/
def accVariantIds (d : Data) (h : String) : List String :=
  match findAccessory d h with
  | none => []
  | some a => a.variants.map (·.id)

/-- Source `removeAccessoryCards(handle)`: deselect every product whose card sits in
a `[data-accessory-group=handle]` wrapper, then drop those wrappers. -/
def removeAccessoryCards (s : Store) (h : String) : Store :=
  let ids := ((s.accessoryGrid.filter fun g => g.1 == h).map (·.2))
  { s with
    selectedProducts := s.selectedProducts.filter fun e => !(ids.contains e.1),
    accessoryGrid := s.accessoryGrid.filter fun g => g.1 != h }

/-- Source `addAccessoryCards(handle)`: append a card per variant of the group. -/
def addAccessoryCards (d : Data) (s : Store) (h : String) : Store :=
  match findAccessory d h with
  | none => s
  | some a => { s with accessoryGrid := s.accessoryGrid ++ a.variants.map fun v => (h, v.id) }

/-- The first block of `handleHarnessModelChipClick`: delete every selected
product whose card is currently in the model grid. -/
def clearModelGridSelections (s : Store) : Store :=
  { s with selectedProducts := s.selectedProducts.filter fun e => !(s.modelGrid.contains e.1) }

/-- The `activeAccessories.forEach(removeAccessoryCards); activeAccessories.clear()`
block of `handleHarnessModelChipClick`. -/
def clearActiveAccessories (s : Store) : Store :=
  let s1 := s.activeAccessories.foldl removeAccessoryCards s
  { s1 with activeAccessories := [] }

/-- The chip filter of `updateAccessoriesVisibility`: a chip is shown when its
accessory has no model filter or the filter includes the selected model. -/
def isLinked (a : HarnessAccessory) (m : String) : Bool :=
  a.harnessTypeHandles.isEmpty || a.harnessTypeHandles.contains m

/-- One chip of the `updateAccessoriesVisibility` loop: a linked-out chip that
is currently active is deactivated and its cards removed. -/
def visChipStep (d : Data) (m : String) (s : Store) (h : String) : Store :=
  match findAccessory d h with
  | none => s
  | some a =>
    if !(isLinked a m) && s.activeAccessories.contains h then
      let s1 := removeAccessoryCards s h
      { s1 with activeAccessories := s1.activeAccessories.filter fun x => x != h }
    else s

/-- Source `updateAccessoriesVisibility`: hidden step when no model is active;
otherwise run the chip loop over every accessory chip. -/
def updateAccessoriesVisibility (d : Data) (s : Store) : Store :=
  match s.activeHarnessModel with
  | none => s
  | some m => (d.harnessAccessories.map (·.handle)).foldl (visChipStep d m) s

/-- Source `handleHarnessModelChipClick` (single-select model chip): deselect when the
chip was already selected, otherwise switch to the new model; in both cases
drop the model-grid selections and all active accessory groups. -/
def handleHarnessModelChipClick (d : Data) (v : String) (s : Store) : Store :=
  let wasSelected := s.activeHarnessModel == some v
  let s1 := clearModelGridSelections s
  let s2 :=
    if wasSelected then
      clearActiveAccessories { s1 with activeHarnessModel := none, modelGrid := [] }
    else
      clearActiveAccessories { s1 with activeHarnessModel := some v, modelGrid := modelVariantIds d v }
  updateAccessoriesVisibility d s2

/-- Source `handleAccessoryChipClick` (multi-select accessory chip toggle). -/
def handleAccessoryChipClick (d : Data) (h : String) (s : Store) : Store :=
  if s.activeAccessories.contains h then
    let s1 := removeAccessoryCards s h
    { s1 with activeAccessories := s1.activeAccessories.filter fun x => x != h }
  else
    addAccessoryCards d { s with activeAccessories := s.activeAccessories ++ [h] } h

/-- The dataset of a clicked product card: `data-variant-id`,
`data-product-type`, `data-available`. -/
structure Card where
  variantId : String
  productType : String
  available : Bool
deriving DecidableEq

/-- The product-data lookup of `handleProductCardClick`: search the catalog
section named by the card type. -/
def resolveProduct (d : Data) (ptype vid : String) : Option Variant :=
  if ptype == "harness-model" then
    ((d.harnessTypes.map (·.variants)).flatten).find? fun v => v.id == vid
  else if ptype == "harness-accessory" then
    ((d.harnessAccessories.map (·.variants)).flatten).find? fun v => v.id == vid
  else if ptype == "accessory" then
    d.accessories.find? fun v => v.id == vid
  else none

/-- Source `handleProductCardClick`: no-op on unavailable cards or missing dataset
fields; otherwise toggle — delete a present entry, else resolve and insert
with quantity 1. -/
def handleProductCardClick (d : Data) (c : Card) (s : Store) : Store :=
  if !c.available then s
  else if c.variantId == "" || c.productType == "" then s
  else
    match lookupP s.selectedProducts c.variantId with
    | some _ => { s with selectedProducts := eraseKey s.selectedProducts c.variantId }
    | none =>
      match resolveProduct d c.productType c.variantId with
      | none => s
      | some pd =>
        { s with selectedProducts :=
            s.selectedProducts ++ [(c.variantId, ⟨pd.id, pd.price, pd.available, c.productType, 1⟩)] }

/-- Source `handleRemoveFromSummary`. -/
def handleRemoveFromSummary (vid : String) (s : Store) : Store :=
  match lookupP s.selectedProducts vid with
  | none => s
  | some _ => { s with selectedProducts := eraseKey s.selectedProducts vid }

/-- The JS idiom `product.quantity || 1`. -/
def jsQty (q : Nat) : Nat := if q == 0 then 1 else q

/-- Source `handleQuantityChange(variantId, delta)`: remove the entry when the new
quantity drops to zero or below, else update in place. -/
def handleQuantityChange (vid : String) (delta : Int) (s : Store) : Store :=
  match lookupP s.selectedProducts vid with
  | none => s
  | some p =>
    let newQ : Int := (jsQty p.quantity : Int) + delta
    if newQ ≤ 0 then { s with selectedProducts := eraseKey s.selectedProducts vid }
    else
      { s with selectedProducts :=
          s.selectedProducts.map fun e =>
            if e.1 == vid then (e.1, { e.2 with quantity := newQ.toNat }) else e }

/-- The `productsByType` accumulator of `updateSummary`. -/
structure ByType where
  hm : List (String × Product)
  ha : List (String × Product)
  ac : List (String × Product)

/-- One push of `productsByType[product.productType].push(...)`; entries with
an unknown type are dropped by the `productsByType[product.productType]` check. -/
def pushByType (b : ByType) (e : String × Product) : ByType :=
  if e.2.productType == "harness-model" then { b with hm := b.hm ++ [e] }
  else if e.2.productType == "harness-accessory" then { b with ha := b.ha ++ [e] }
  else if e.2.productType == "accessory" then { b with ac := b.ac ++ [e] }
  else b

/-- The summary item list of `updateSummary`: bucket by type, then render the
three buckets in the fixed order. -/
def summaryItems (s : Store) : List (String × Product) :=
  let b := s.selectedProducts.foldl pushByType ⟨[], [], []⟩
  b.hm ++ b.ha ++ b.ac

/-- The total/item-count loop of `updateSummary`: entries failing the
`product?.price` truthiness test are skipped in both sums. -/
def summaryTotals (s : Store) : Nat × Nat :=
  s.selectedProducts.foldl
    (fun acc e =>
      if e.2.price != 0 then
        (acc.1 + e.2.price * jsQty e.2.quantity, acc.2 + jsQty e.2.quantity)
      else acc)
    (0, 0)

/-- Source `clearAllSelections`: resets `selectedProducts` only (card highlights are
DOM state). -/
def clearAllSelections (s : Store) : Store := { s with selectedProducts := [] }

/-- The JSON body of a non-ok `cart/add.js` response, as read by
`handleAddToCart`. -/
structure AddResponse where
  ok : Bool
  description : Option String
  message : Option String
deriving DecidableEq

/-- JS `a || b` on strings (empty string is falsy). -/
def jsOr (a b : String) : String := if a == "" then b else a

/-- The read `responseData.description || responseData.message || ''`. -/
def errMessageOf (r : AddResponse) : String :=
  jsOr (r.description.getD "") (r.message.getD "")

/-- Whether the second character sequence starts with the first. -/
def matchHere : List Char → List Char → Bool
  | [], _ => true
  | _ :: _, [] => false
  | a :: as, b :: bs => a == b && matchHere as bs

/-- Whether the pattern occurs contiguously somewhere in the sequence. -/
def containsSeq (pat : List Char) : List Char → Bool
  | [] => matchHere pat []
  | c :: t => matchHere pat (c :: t) || containsSeq pat t

/-- The test `str.toLowerCase().includes(pat)`. -/
def lowerContains (s pat : String) : Bool :=
  containsSeq pat.data (s.data.map Char.toLower)

/-- The stock-error classification of `handleAddToCart`. -/
def isStockMessage (msg : String) : Bool :=
  lowerContains msg "out of stock" || lowerContains msg "not available" ||
    lowerContains msg "inventory"

/-- The error label computed by the catch block of `handleAddToCart` for a
non-ok response: the throw site raises `out_of_stock` or the raw message (or
`Failed to add to cart` when the message is empty), and the catch block picks
the display text. -/
def failureLabel (r : AddResponse) : String :=
  let errorMessage := errMessageOf r
  let thrownMsg :=
    if isStockMessage errorMessage then "out_of_stock"
    else jsOr errorMessage "Failed to add to cart"
  if thrownMsg == "out_of_stock" then "Some items are out of stock"
  else if thrownMsg != "" && thrownMsg.length ≤ 30 then thrownMsg
  else "Error - Try Again"

/-- The `items` payload built at the top of `handleAddToCart`: one
`{id, quantity}` pair per selected product with a truthy id. -/
def buildItems (s : Store) : List (String × Nat) :=
  s.selectedProducts.foldl
    (fun acc e => if e.2.id != "" then acc ++ [(e.2.id, jsQty e.2.quantity)] else acc) []

/-- One spec time-unit in milliseconds (the source timers are 2000 ms and
2500 ms for the 2- and 2.5-unit delays). -/
def timeUnitMs : Nat := 1000

/-- The observable outcome of one `handleAddToCart` run: resulting store,
how many mutating requests and total network calls were made, the button
label shown, the auto-revert delay and label when a timer was set, and
whether the run was the empty-selection rejection. -/
structure SubmitOutcome where
  store : Store
  mutatingCalls : Nat
  networkCalls : Nat
  label : String
  revertAfterMs : Option Nat
  revertLabel : Option String
  rejected : Bool
deriving DecidableEq

/-- Source `handleAddToCart`, with the two awaited fetches folded into `resp` (the
`cart.js` read is a non-mutating second call issued only on an ok add
response).  `datasetOrig` is `button.dataset.originalText`; `buttonText` is
the button label at click time. -/
def handleAddToCart (datasetOrig : Option String) (buttonText : String)
    (s : Store) (resp : AddResponse) : SubmitOutcome :=
  let items := buildItems s
  if items.isEmpty then
    { store := s, mutatingCalls := 0, networkCalls := 0,
      label := "Select products first",
      revertAfterMs := some 2000,
      revertLabel := some (datasetOrig.getD "Add All to Cart"),
      rejected := true }
  else if resp.ok then
    { store := clearAllSelections s, mutatingCalls := 1, networkCalls := 2,
      label := buttonText,
      revertAfterMs := none, revertLabel := none, rejected := false }
  else
    { store := s, mutatingCalls := 1, networkCalls := 1,
      label := failureLabel resp,
      revertAfterMs := some 2500,
      revertLabel := some buttonText, rejected := false }

/-- The submission lifecycle of `handleAddToCart` as a phase machine.
`idle` is the enabled button; `awaitAdd` is the span between `button.disabled
= true` and the resolution of the `cart/add.js` fetch (the mutating request
is in flight exactly here); `awaitCart` is the follow-up `cart.js` read;
`failWait` is the 2500 ms error display before the timer re-enables the
button. -/
inductive Phase where
  | idle
  | awaitAdd
  | awaitCart
  | failWait
deriving DecidableEq

/-- Events driving the submission machine: a click on the add-to-cart control
(with whether the store has items at that moment), resolution or rejection of
the add fetch, completion or failure of the cart read, and the display-reset
timer firing. -/
inductive SubmitEv where
  | click (storeHasItems : Bool)
  | addOk
  | addFail
  | cartDone
  | cartFail
  | timerFire
deriving DecidableEq

/-- The value of `button.disabled` in each phase. -/
def busyOf : Phase → Bool
  | .idle => false
  | _ => true

/-- Whether the mutating `cart/add.js` request is in flight. -/
def mutatingInFlight : Phase → Bool
  | .awaitAdd => true
  | _ => false

/-- Whether one step of the machine is an accepted submission: a click on the
enabled control with a non-empty selection. -/
def isAcceptedClick (p : Phase) (e : SubmitEv) : Bool :=
  match p, e with
  | .idle, .click true => true
  | _, _ => false

/-- One step of the submission machine, returning the next phase and how many
mutating requests the step issues.  A click in any non-idle phase is not
delivered (the control carries the `disabled` attribute), and completion
events of calls that are not in flight cannot occur, so both leave the phase
unchanged. -/
def stepSubmit : Phase → SubmitEv → Phase × Nat
  | .idle, .click true => (.awaitAdd, 1)
  | .idle, .click false => (.idle, 0)
  | .awaitAdd, .addOk => (.awaitCart, 0)
  | .awaitAdd, .addFail => (.failWait, 0)
  | .awaitCart, .cartDone => (.idle, 0)
  | .awaitCart, .cartFail => (.failWait, 0)
  | .failWait, .timerFire => (.idle, 0)
  | p, _ => (p, 0)

/-- Run the submission machine over an event trace. -/
def runSubmit : Phase → List SubmitEv → Phase
  | p, [] => p
  | p, e :: es => runSubmit (stepSubmit p e).1 es

/-- Total mutating requests issued along a trace. -/
def issuedCount : Phase → List SubmitEv → Nat
  | _, [] => 0
  | p, e :: es => (stepSubmit p e).2 + issuedCount (stepSubmit p e).1 es

/-- Total accepted submissions along a trace. -/
def acceptedCount : Phase → List SubmitEv → Nat
  | _, [] => 0
  | p, e :: es => (if isAcceptedClick p e then 1 else 0) + acceptedCount (stepSubmit p e).1 es

/-- Ids of the independent (block) accessories. -/
def indepIds (d : Data) : List String := d.accessories.map (·.id)

/-- All variant ids reachable through any `harness_type` entry. -/
def allModelVariantIds (d : Data) : List String :=
  ((d.harnessTypes.map (·.variants)).flatten).map (·.id)

/-- All variant ids reachable through any harness accessory group. -/
def allAccVariantIds (d : Data) : List String :=
  ((d.harnessAccessories.map (·.variants)).flatten).map (·.id)

/-- Catalog sanity from the spec data model (`id` unique within the
snapshot): independent-accessory ids do not collide with model-variant or
dependent-accessory-variant ids. -/
def DataWf (d : Data) : Prop :=
  ∀ i ∈ indepIds d, i ∉ allModelVariantIds d ∧ i ∉ allAccVariantIds d

/-- Whether the chip of accessory group `h` is shown: the accessories step is
hidden without an active model; with model `m` the chip is shown when the
group has no model filter or its filter contains `m`
(`updateAccessoriesVisibility`). -/
def groupVisible (d : Data) (am : Option String) (h : String) : Bool :=
  match am, findAccessory d h with
  | some m, some a => isLinked a m
  | _, _ => false

/-- The DOM/state consistency invariant of a reachable widget state:
the model grid shows the active model's variants (and everything
accessory-related is empty when no model is active); accessory-grid cards
belong to active groups and carry that group's variant ids, and every active
group has all its cards present and its chip visible; every selected product
is keyed by its own non-empty id, has one of the three product types, a
positive quantity, and a card in the grid (or catalog section) matching its
type. -/
def Wf (d : Data) (s : Store) : Prop :=
  (match s.activeHarnessModel with
   | none => s.activeAccessories = [] ∧ s.modelGrid = [] ∧ s.accessoryGrid = []
   | some m => s.modelGrid = modelVariantIds d m) ∧
  (∀ g ∈ s.accessoryGrid, g.1 ∈ s.activeAccessories ∧ g.2 ∈ accVariantIds d g.1) ∧
  (∀ h ∈ s.activeAccessories, ∀ i ∈ accVariantIds d h, (h, i) ∈ s.accessoryGrid) ∧
  (∀ h ∈ s.activeAccessories, groupVisible d s.activeHarnessModel h = true) ∧
  (∀ e ∈ s.selectedProducts,
    (e.2.productType = "harness-model" → e.1 ∈ s.modelGrid) ∧
    (e.2.productType = "harness-accessory" → ∃ g ∈ s.accessoryGrid, g.2 = e.1) ∧
    (e.2.productType = "accessory" → e.1 ∈ indepIds d) ∧
    (e.2.productType = "harness-model" ∨ e.2.productType = "harness-accessory" ∨
      e.2.productType = "accessory") ∧
    0 < e.2.quantity ∧ e.2.id = e.1 ∧ e.1 ≠ "")

/-- The visibility invariant claimed for the store: every active group's chip
is visible for the current active model, and every dependent-accessory
selection belongs to an active (hence visible) group. -/
def GroupInv (d : Data) (s : Store) : Prop :=
  (∀ h ∈ s.activeAccessories, groupVisible d s.activeHarnessModel h = true) ∧
  (∀ e ∈ s.selectedProducts, e.2.productType = "harness-accessory" →
    ∃ h ∈ s.activeAccessories, e.1 ∈ accVariantIds d h)

/-- A clicked card that actually exists in the widget DOM: model-variant
cards live in the model grid, dependent-accessory cards in the accessory
grid. -/
def CardWf (s : Store) (c : Card) : Prop :=
  (c.productType = "harness-model" → c.variantId ∈ s.modelGrid) ∧
  (c.productType = "harness-accessory" → ∃ g ∈ s.accessoryGrid, g.2 = c.variantId)

/-- A toggle that the UI can deliver: the card is available, carries both
dataset fields, and resolves against the catalog snapshot. -/
def ValidCard (d : Data) (c : Card) : Prop :=
  c.available = true ∧ c.variantId ≠ "" ∧ c.productType ≠ "" ∧
    (resolveProduct d c.productType c.variantId).isSome = true

/-- A sequence of product-card toggles. -/
def toggleAll (d : Data) (cs : List Card) (s : Store) : Store :=
  cs.foldl (fun t c => handleProductCardClick d c t) s

/-- How often a given variant id is toggled in a card sequence. -/
def countToggles (vid : String) (cs : List Card) : Nat :=
  (cs.filter fun c => c.variantId == vid).length

/-- Fixture: a successful add-to-cart response. -/
def exResponseOk : AddResponse := ⟨true, none, none⟩

/-- Fixture: a failure response with no error text at all. -/
def exResponseNoMsg : AddResponse := ⟨false, none, none⟩

/-- Fixture: a failure response with the §8 scenario description. -/
def exResponseInventory : AddResponse :=
  ⟨false, some "Variant not available due to inventory", none⟩

/-- Fixture: a selected model-variant product. -/
def exProductHM : Product := ⟨"v1", 5000, true, "harness-model", 1⟩

/-- Fixture: a selected zero-priced independent accessory. -/
def exProductFree : Product := ⟨"f1", 0, true, "accessory", 1⟩

/-- Fixture: a selected independent accessory, quantity 2. -/
def exProductIndep : Product := ⟨"b1", 700, true, "accessory", 2⟩

/-- Fixture: a catalog with one harness model `m1` carrying variant `v1`. -/
def exData1 : Data := ⟨[⟨["m1"], [⟨"v1", 5000, true⟩]⟩], [], []⟩

/-- Fixture: a catalog with model `m1`/variant `v1`, dependent group `g1`
(owned by `m1`) with variant `a1`, and independent accessory `b1`. -/
def exData2 : Data :=
  ⟨[⟨["m1"], [⟨"v1", 5000, true⟩]⟩], [⟨"g1", ["m1"], [⟨"a1", 1500, true⟩]⟩],
    [⟨"b1", 700, true⟩]⟩

/-- Fixture: a catalog holding only the independent accessory `b1`. -/
def exDataIndep : Data := ⟨[], [], [⟨"b1", 700, true⟩]⟩

/-- Fixture: the card of variant `v1`. -/
def exCardV1 : Card := ⟨"v1", "harness-model", true⟩

/-- Fixture: the card of independent accessory `b1`. -/
def exCardB1 : Card := ⟨"b1", "accessory", true⟩

/-- Fixture: a card whose id resolves nowhere in the catalog. -/
def exCardUnknown : Card := ⟨"zz", "accessory", true⟩

/-- Fixture: a reachable store with model `m1` active, group `g1` active, and
the model variant `v1` selected. -/
def exStoreC1 : Store :=
  ⟨some "m1", ["g1"], [("v1", exProductHM)], ["v1"], [("g1", "a1")]⟩

/-- Fixture: a store holding one zero-priced entry. -/
def exStoreFree : Store := { emptyStore with selectedProducts := [("f1", exProductFree)] }

/-- Fixture: a store holding one paid entry (quantity 2). -/
def exStoreIndep : Store := { emptyStore with selectedProducts := [("b1", exProductIndep)] }

/-- Fixture: the reachable store after selecting model `m1` and toggling its
variant card `v1`. -/
def exStoreC4 : Store :=
  handleProductCardClick exData1 exCardV1 (handleHarnessModelChipClick exData1 "m1" emptyStore)

/-- Fixture: a fully populated reachable store over `exData2`: model `m1`
active, group `g1` active, variant `v1`, dependent accessory `a1`, and
independent accessory `b1` selected. -/
def exStoreC3 : Store :=
  ⟨some "m1", ["g1"],
   [("v1", ⟨"v1", 5000, true, "harness-model", 1⟩),
    ("a1", ⟨"a1", 1500, true, "harness-accessory", 1⟩),
    ("b1", ⟨"b1", 700, true, "accessory", 1⟩)],
   ["v1"], [("g1", "a1")]⟩

theorem jsQty_of_pos {q : Nat} (h : 0 < q) : jsQty q = q := by
  unfold jsQty
  simp [Nat.pos_iff_ne_zero.mp h]

theorem foldl_pushByType (l : List (String × Product)) (b : ByType) :
    (l.foldl pushByType b).hm = b.hm ++ l.filter (fun e => e.2.productType == "harness-model") ∧
    (l.foldl pushByType b).ha = b.ha ++ l.filter (fun e => e.2.productType == "harness-accessory") ∧
    (l.foldl pushByType b).ac = b.ac ++ l.filter (fun e => e.2.productType == "accessory") := by
  induction l generalizing b with
  | nil => simp
  | cons e l ih =>
    by_cases h1 : e.2.productType = "harness-model"
    · have hb1 : (e.2.productType == "harness-model") = true := by rw [h1]; decide
      have hb2 : (e.2.productType == "harness-accessory") = false := by rw [h1]; decide
      have hb3 : (e.2.productType == "accessory") = false := by rw [h1]; decide
      have hpb : pushByType b e = ⟨b.hm ++ [e], b.ha, b.ac⟩ := by
        simp [pushByType, hb1]
      obtain ⟨ih1, ih2, ih3⟩ := ih (pushByType b e)
      rw [hpb] at ih1 ih2 ih3
      refine ⟨?_, ?_, ?_⟩ <;>
        simp [List.foldl_cons, hpb, ih1, ih2, ih3, List.filter_cons, hb1, hb2, hb3]
    · by_cases h2 : e.2.productType = "harness-accessory"
      · have hb1 : (e.2.productType == "harness-model") = false := by rw [h2]; decide
        have hb2 : (e.2.productType == "harness-accessory") = true := by rw [h2]; decide
        have hb3 : (e.2.productType == "accessory") = false := by rw [h2]; decide
        have hpb : pushByType b e = ⟨b.hm, b.ha ++ [e], b.ac⟩ := by
          simp [pushByType, hb1, hb2]
        obtain ⟨ih1, ih2, ih3⟩ := ih (pushByType b e)
        rw [hpb] at ih1 ih2 ih3
        refine ⟨?_, ?_, ?_⟩ <;>
          simp [List.foldl_cons, hpb, ih1, ih2, ih3, List.filter_cons, hb1, hb2, hb3]
      · by_cases h3 : e.2.productType = "accessory"
        · have hb1 : (e.2.productType == "harness-model") = false := by rw [h3]; decide
          have hb2 : (e.2.productType == "harness-accessory") = false := by rw [h3]; decide
          have hb3 : (e.2.productType == "accessory") = true := by rw [h3]; decide
          have hpb : pushByType b e = ⟨b.hm, b.ha, b.ac ++ [e]⟩ := by
            simp [pushByType, hb1, hb2, hb3]
          obtain ⟨ih1, ih2, ih3⟩ := ih (pushByType b e)
          rw [hpb] at ih1 ih2 ih3
          refine ⟨?_, ?_, ?_⟩ <;>
            simp [List.foldl_cons, hpb, ih1, ih2, ih3, List.filter_cons, hb1, hb2, hb3]
        · have hb1 : (e.2.productType == "harness-model") = false :=
            beq_eq_false_iff_ne.mpr h1
          have hb2 : (e.2.productType == "harness-accessory") = false :=
            beq_eq_false_iff_ne.mpr h2
          have hb3 : (e.2.productType == "accessory") = false :=
            beq_eq_false_iff_ne.mpr h3
          have hpb : pushByType b e = b := by
            simp [pushByType, hb1, hb2, hb3]
          obtain ⟨ih1, ih2, ih3⟩ := ih (pushByType b e)
          rw [hpb] at ih1 ih2 ih3
          refine ⟨?_, ?_, ?_⟩ <;>
            simp [List.foldl_cons, hpb, ih1, ih2, ih3, List.filter_cons, hb1, hb2, hb3]

/-- C9: for every store state, the summary lists the selection entries in the
fixed role order model-variant (`harness-model`), dependent accessory
(`harness-accessory`), independent accessory (`accessory`), each group in
insertion order of the selection map. -/
theorem C9_summary_display_order (s : Store) :
    summaryItems s =
      s.selectedProducts.filter (fun e => e.2.productType == "harness-model") ++
      s.selectedProducts.filter (fun e => e.2.productType == "harness-accessory") ++
      s.selectedProducts.filter (fun e => e.2.productType == "accessory") := by
  unfold summaryItems
  obtain ⟨h1, h2, h3⟩ := foldl_pushByType s.selectedProducts ⟨[], [], []⟩
  simp [h1, h2, h3]

theorem summaryTotals_foldl (l : List (String × Product)) (a b : Nat) :
    l.foldl
      (fun acc e =>
        if e.2.price != 0 then
          (acc.1 + e.2.price * jsQty e.2.quantity, acc.2 + jsQty e.2.quantity)
        else acc)
      (a, b) =
    (a + (l.map fun e => e.2.price * jsQty e.2.quantity).sum,
     b + ((l.filter fun e => e.2.price != 0).map fun e => jsQty e.2.quantity).sum) := by
  induction l generalizing a b with
  | nil => simp
  | cons e l ih =>
    rw [List.foldl_cons]
    by_cases hp : e.2.price = 0
    · have hb : (e.2.price != 0) = false := by simp [hp]
      rw [if_neg (by simp [hb])]
      rw [ih]
      simp [List.filter_cons, hb, hp]
    · have hb : (e.2.price != 0) = true := by simpa using hp
      rw [if_pos (by simp [hb])]
      rw [ih]
      simp [List.filter_cons, hb, Nat.add_assoc]

/-- C2 (amended): for every store whose entries have positive quantity, the
grand total is the sum of `price × quantity` over all entries, while the item
count is the sum of quantities over the entries with nonzero unit price only
(the `product?.price` truthiness test skips zero-priced entries). -/
theorem C2_totals_amended (s : Store)
    (hq : ∀ e ∈ s.selectedProducts, 0 < e.2.quantity) :
    (summaryTotals s).1 = (s.selectedProducts.map fun e => e.2.price * e.2.quantity).sum ∧
    (summaryTotals s).2 =
      ((s.selectedProducts.filter fun e => e.2.price != 0).map fun e => e.2.quantity).sum := by
  unfold summaryTotals
  rw [summaryTotals_foldl]
  constructor
  · simp only [Nat.zero_add]
    refine congrArg List.sum (List.map_congr_left ?_)
    intro e he
    rw [jsQty_of_pos (hq e he)]
  · simp only [Nat.zero_add]
    refine congrArg List.sum (List.map_congr_left ?_)
    intro e he
    exact jsQty_of_pos (hq e (List.mem_of_mem_filter he))

/-- C2 witness: the amended totals at a concrete store. -/
theorem C2_totals_witness :
    (summaryTotals exStoreIndep).1 =
      (exStoreIndep.selectedProducts.map fun e => e.2.price * e.2.quantity).sum ∧
    (summaryTotals exStoreIndep).2 =
      ((exStoreIndep.selectedProducts.filter fun e => e.2.price != 0).map
        fun e => e.2.quantity).sum :=
  C2_totals_amended exStoreIndep (by decide)

/-- C2 counterexample: with a zero-priced entry of quantity 1 in the store,
the rendered item count is 0, not the sum of all quantities (1), so the claim
as stated fails. -/
theorem C2_totals_counterexample :
    ¬ ((summaryTotals exStoreFree).1 =
        (exStoreFree.selectedProducts.map fun e => e.2.price * e.2.quantity).sum ∧
       (summaryTotals exStoreFree).2 =
        (exStoreFree.selectedProducts.map fun e => e.2.quantity).sum) := by
  decide

/-- C1 (amended): `clearAllSelections` empties the selection map but leaves
the active model and the active accessory-group set untouched, and a
successful submission does exactly the same reset. -/
theorem C1_clear_amended (s : Store) :
    (clearAllSelections s).selectedProducts = [] ∧
    (clearAllSelections s).activeHarnessModel = s.activeHarnessModel ∧
    (clearAllSelections s).activeAccessories = s.activeAccessories ∧
    ∀ o t r, r.ok = true → buildItems s ≠ [] →
      (handleAddToCart o t s r).store.selectedProducts = [] ∧
      (handleAddToCart o t s r).store.activeHarnessModel = s.activeHarnessModel ∧
      (handleAddToCart o t s r).store.activeAccessories = s.activeAccessories := by
  refine ⟨rfl, rfl, rfl, ?_⟩
  intro o t r hok hne
  unfold handleAddToCart
  simp [hok, hne, clearAllSelections]

/-- C1 witness: the amended clear behaviour at a concrete reachable store. -/
theorem C1_clear_witness :
    (clearAllSelections exStoreC1).selectedProducts = [] ∧
    (handleAddToCart (some "Add All to Cart") "Add to Cart (1 item)" exStoreC1
      exResponseOk).store.selectedProducts = [] ∧
    (handleAddToCart (some "Add All to Cart") "Add to Cart (1 item)" exStoreC1
      exResponseOk).store.activeHarnessModel = exStoreC1.activeHarnessModel :=
  ⟨(C1_clear_amended exStoreC1).1,
   ((C1_clear_amended exStoreC1).2.2.2 (some "Add All to Cart") "Add to Cart (1 item)"
      exResponseOk rfl (by decide)).1,
   ((C1_clear_amended exStoreC1).2.2.2 (some "Add All to Cart") "Add to Cart (1 item)"
      exResponseOk rfl (by decide)).2.1⟩

/-- C1 counterexample: `clearAllSelections` does not reset the active model
to none (nor the group set to empty), so the claim that clear empties the
entire store fails on a store with an active model. -/
theorem C1_clear_counterexample :
    ¬ ((clearAllSelections exStoreC1).activeHarnessModel = none ∧
       (clearAllSelections exStoreC1).activeAccessories = []) := by
  decide

/-- C8: submitting with an empty selection map enters the rejected display
state with label `Select products first`, reverts to the stored idle label
after 2 time-units, and issues no network call at all. -/
theorem C8_empty_submit_rejected (o : Option String) (t : String) (s : Store)
    (r : AddResponse) (h : s.selectedProducts = []) :
    (handleAddToCart o t s r).rejected = true ∧
    (handleAddToCart o t s r).label = "Select products first" ∧
    (handleAddToCart o t s r).networkCalls = 0 ∧
    (handleAddToCart o t s r).mutatingCalls = 0 ∧
    (handleAddToCart o t s r).revertAfterMs = some (2 * timeUnitMs) ∧
    (handleAddToCart o t s r).revertLabel = some (o.getD "Add All to Cart") ∧
    (handleAddToCart o t s r).store = s := by
  unfold handleAddToCart
  simp [buildItems, h, timeUnitMs]

/-- C8 witness: the rejected submission at the empty mount state. -/
theorem C8_empty_submit_witness :
    (handleAddToCart none "Add All to Cart" emptyStore exResponseOk).rejected = true ∧
    (handleAddToCart none "Add All to Cart" emptyStore exResponseOk).label =
      "Select products first" ∧
    (handleAddToCart none "Add All to Cart" emptyStore exResponseOk).networkCalls = 0 ∧
    (handleAddToCart none "Add All to Cart" emptyStore exResponseOk).mutatingCalls = 0 ∧
    (handleAddToCart none "Add All to Cart" emptyStore exResponseOk).revertAfterMs =
      some (2 * timeUnitMs) ∧
    (handleAddToCart none "Add All to Cart" emptyStore exResponseOk).revertLabel =
      some "Add All to Cart" ∧
    (handleAddToCart none "Add All to Cart" emptyStore exResponseOk).store = emptyStore :=
  C8_empty_submit_rejected none "Add All to Cart" emptyStore exResponseOk rfl

theorem buildItems_isEmpty_false {s : Store} (h : buildItems s ≠ []) :
    (buildItems s).isEmpty = false := by
  cases hbi : buildItems s with
  | nil => exact absurd hbi h
  | cons a l => rfl

theorem handleAddToCart_failure {o : Option String} {t : String} {s : Store} {r : AddResponse}
    (hok : r.ok = false) (hne : buildItems s ≠ []) :
    handleAddToCart o t s r =
      { store := s, mutatingCalls := 1, networkCalls := 1, label := failureLabel r,
        revertAfterMs := some 2500, revertLabel := some t, rejected := false } := by
  unfold handleAddToCart
  simp [buildItems_isEmpty_false hne, hok]

/-- C7 (amended): on a non-success response, a message containing one of the
stock substrings shows `Some items are out of stock`; otherwise a nonempty
message of at most 30 characters is shown raw (apart from the literal
sentinel `out_of_stock`, which collides with the internal stock marker); a
longer message shows `Error - Try Again`; an absent/empty message shows
`Failed to add to cart`; and in every failure case the store is left
unchanged, with a 2.5-time-unit display reset. -/
theorem C7_failure_text_amended (o : Option String) (t : String) (s : Store)
    (r : AddResponse) (hok : r.ok = false) (hne : buildItems s ≠ []) :
    (handleAddToCart o t s r).store = s ∧
    (handleAddToCart o t s r).rejected = false ∧
    (handleAddToCart o t s r).revertAfterMs = some 2500 ∧
    (isStockMessage (errMessageOf r) = true →
      (handleAddToCart o t s r).label = "Some items are out of stock") ∧
    (isStockMessage (errMessageOf r) = false → errMessageOf r ≠ "" →
      errMessageOf r ≠ "out_of_stock" → (errMessageOf r).length ≤ 30 →
      (handleAddToCart o t s r).label = errMessageOf r) ∧
    (isStockMessage (errMessageOf r) = false → 30 < (errMessageOf r).length →
      (handleAddToCart o t s r).label = "Error - Try Again") ∧
    (errMessageOf r = "" → (handleAddToCart o t s r).label = "Failed to add to cart") := by
  rw [handleAddToCart_failure hok hne]
  refine ⟨rfl, rfl, rfl, ?_, ?_, ?_, ?_⟩
  · intro hstock
    simp [failureLabel, hstock]
  · intro hstock hmsg hsent hlen
    have hb1 : (errMessageOf r == "") = false := beq_eq_false_iff_ne.mpr hmsg
    have hb2 : (errMessageOf r == "out_of_stock") = false := beq_eq_false_iff_ne.mpr hsent
    have hb3 : (errMessageOf r != "") = true := by simp [bne, hb1]
    simp [failureLabel, jsOr, hstock, hb1, hb2, hb3, hlen]
  · intro hstock hlen
    have hmsg : errMessageOf r ≠ "" := by
      intro hemp
      rw [hemp] at hlen
      exact absurd hlen (by decide)
    have hsent : errMessageOf r ≠ "out_of_stock" := by
      intro heq
      rw [heq] at hlen
      exact absurd hlen (by decide)
    have hb1 : (errMessageOf r == "") = false := beq_eq_false_iff_ne.mpr hmsg
    have hb2 : (errMessageOf r == "out_of_stock") = false := beq_eq_false_iff_ne.mpr hsent
    have hlen' : ¬ (errMessageOf r).length ≤ 30 := by omega
    simp [failureLabel, jsOr, hstock, hb1, hb2, hlen']
  · intro hemp
    have h1 : isStockMessage "" = false := by decide
    have h2 : ("Failed to add to cart" : String).length ≤ 30 := by decide
    have h3 : ("Failed to add to cart" : String) ≠ "" := by decide
    have h4 : ("Failed to add to cart" : String) ≠ "out_of_stock" := by decide
    simp [failureLabel, jsOr, hemp, h1, h2, h3, h4]

/-- C7 witness: the §8 scenario — description `Variant not available due to
inventory` yields the stock label and leaves the store untouched. -/
theorem C7_failure_text_witness :
    (handleAddToCart none "Add to Cart (2 items)" exStoreIndep exResponseInventory).store =
      exStoreIndep ∧
    (handleAddToCart none "Add to Cart (2 items)" exStoreIndep exResponseInventory).label =
      "Some items are out of stock" :=
  ⟨(C7_failure_text_amended none "Add to Cart (2 items)" exStoreIndep exResponseInventory
      rfl (by decide)).1,
   (C7_failure_text_amended none "Add to Cart (2 items)" exStoreIndep exResponseInventory
      rfl (by decide)).2.2.2.1 (by decide)⟩

/-- C7 counterexample: with the free-text error field absent, the code shows
`Failed to add to cart`, not the generic `Error — Try Again` the claim
requires for the absent case. -/
theorem C7_failure_text_counterexample :
    (handleAddToCart none "Add to Cart (2 items)" exStoreIndep exResponseNoMsg).label =
      "Failed to add to cart" ∧
    "Failed to add to cart" ≠ "Error — Try Again" ∧
    "Failed to add to cart" ≠ "Error - Try Again" := by
  refine ⟨by decide, by decide, by decide⟩

theorem lookupP_cons (e : String × Product) (l : List (String × Product)) (v : String) :
    lookupP (e :: l) v = if e.1 == v then some e.2 else lookupP l v := by
  unfold lookupP
  cases hb : (e.1 == v) <;> simp [List.find?_cons, hb]

theorem lookupP_eraseKey (l : List (String × Product)) (k v : String) :
    lookupP (eraseKey l k) v = if v = k then none else lookupP l v := by
  induction l with
  | nil => simp [eraseKey, lookupP]
  | cons e l ih =>
    by_cases hek : e.1 = k
    · have hb : (e.1 != k) = false := by simp [hek]
      have h1 : eraseKey (e :: l) k = eraseKey l k := by
        simp [eraseKey, List.filter_cons, hb]
      rw [h1, ih]
      by_cases hvk : v = k
      · simp [hvk]
      · have hb2 : (e.1 == v) = false :=
          beq_eq_false_iff_ne.mpr (by rw [hek]; exact Ne.symm hvk)
        simp [hvk, lookupP_cons, hb2]
    · have hb : (e.1 != k) = true := by simpa using hek
      have h1 : eraseKey (e :: l) k = e :: eraseKey l k := by
        simp [eraseKey, List.filter_cons, hb]
      rw [h1, lookupP_cons, lookupP_cons]
      by_cases hev : e.1 = v
      · have hvk : ¬ v = k := fun hh => hek (hev.trans hh)
        have hb2 : (e.1 == v) = true := by simp [hev]
        simp [hb2, hvk]
      · have hb2 : (e.1 == v) = false := beq_eq_false_iff_ne.mpr hev
        simp [hb2, ih]

theorem lookupP_append_one (l : List (String × Product)) (k : String) (p : Product)
    (v : String) :
    lookupP (l ++ [(k, p)]) v =
      match lookupP l v with
      | some q => some q
      | none => if k == v then some p else none := by
  unfold lookupP
  rw [List.find?_append]
  cases hf : List.find? (fun e => e.1 == v) l
  · cases hb : (k == v) <;> simp [hf, List.find?_cons, hb]
  · simp [hf]

theorem toggle_isSome (d : Data) (c : Card) (s : Store) (hv : ValidCard d c)
    (vid : String) :
    (lookupP (handleProductCardClick d c s).selectedProducts vid).isSome =
      (if c.variantId = vid then !(lookupP s.selectedProducts vid).isSome
       else (lookupP s.selectedProducts vid).isSome) := by
  obtain ⟨ha, hid, hpt, hres⟩ := hv
  have hb1 : (c.variantId == "") = false := beq_eq_false_iff_ne.mpr hid
  have hb2 : (c.productType == "") = false := beq_eq_false_iff_ne.mpr hpt
  unfold handleProductCardClick
  rw [ha]
  simp only [Bool.not_true, Bool.false_eq_true, if_false, hb1, hb2, Bool.or_self,
    Bool.false_or, ite_false]
  cases hlk : lookupP s.selectedProducts c.variantId with
  | some q =>
    simp only [hlk]
    rw [lookupP_eraseKey]
    by_cases hcv : c.variantId = vid
    · rw [← hcv] at *
      simp [hlk]
    · have : ¬ vid = c.variantId := fun hh => hcv hh.symm
      simp [this, hcv]
  | none =>
    obtain ⟨pd, hpd⟩ := Option.isSome_iff_exists.mp hres
    simp only [hlk, hpd]
    rw [lookupP_append_one]
    by_cases hcv : c.variantId = vid
    · rw [← hcv] at *
      simp [hlk]
    · have hbv : (c.variantId == vid) = false := beq_eq_false_iff_ne.mpr hcv
      cases hlv : lookupP s.selectedProducts vid <;> simp [hlv, hbv, hcv]

theorem toggle_qty (d : Data) (c : Card) (s : Store)
    (hq : ∀ e ∈ s.selectedProducts, e.2.quantity = 1) :
    ∀ e ∈ (handleProductCardClick d c s).selectedProducts, e.2.quantity = 1 := by
  intro e he
  unfold handleProductCardClick at he
  split at he
  · exact hq e he
  · split at he
    · exact hq e he
    · split at he
      · unfold eraseKey at he
        exact hq e (List.mem_of_mem_filter he)
      · split at he
        · exact hq e he
        · rcases List.mem_append.mp he with h | h
          · exact hq e h
          · rw [List.mem_singleton.mp h]

theorem decide_succ_mod_two (n : Nat) :
    decide ((n + 1) % 2 = 1) = !decide (n % 2 = 1) := by
  rcases Nat.mod_two_eq_zero_or_one n with h | h
  · have h2 : (n + 1) % 2 = 1 := by omega
    simp [h, h2]
  · have h2 : (n + 1) % 2 = 0 := by omega
    simp [h, h2]

theorem countToggles_cons (vid : String) (c : Card) (cs : List Card) :
    countToggles vid (c :: cs) =
      (if c.variantId == vid then 1 else 0) + countToggles vid cs := by
  unfold countToggles
  rw [List.filter_cons]
  cases hb : (c.variantId == vid) <;> simp [hb, Nat.add_comm]

theorem toggleAll_isSome (d : Data) (cs : List Card) (s : Store)
    (hv : ∀ c ∈ cs, ValidCard d c) (vid : String) :
    (lookupP (toggleAll d cs s).selectedProducts vid).isSome =
      ((lookupP s.selectedProducts vid).isSome).xor (decide (countToggles vid cs % 2 = 1)) := by
  induction cs generalizing s with
  | nil => simp [toggleAll, countToggles]
  | cons c cs ih =>
    have hstep : toggleAll d (c :: cs) s = toggleAll d cs (handleProductCardClick d c s) := rfl
    rw [hstep, ih (handleProductCardClick d c s) (fun x hx => hv x (List.mem_cons_of_mem c hx))]
    rw [toggle_isSome d c s (hv c (List.mem_cons_self c cs)) vid]
    rw [countToggles_cons]
    by_cases hcv : c.variantId = vid
    · simp only [hcv, beq_self_eq_true, eq_self_iff_true, ite_true, if_true]
      rw [Nat.add_comm 1 (countToggles vid cs), decide_succ_mod_two]
      generalize (lookupP s.selectedProducts vid).isSome = a
      generalize decide (countToggles vid cs % 2 = 1) = b
      cases a <;> cases b <;> rfl
    · have hb : (c.variantId == vid) = false := beq_eq_false_iff_ne.mpr hcv
      rw [hb]
      simp [hcv]

theorem toggleAll_qty (d : Data) (cs : List Card) (s : Store)
    (hq : ∀ e ∈ s.selectedProducts, e.2.quantity = 1) :
    ∀ e ∈ (toggleAll d cs s).selectedProducts, e.2.quantity = 1 := by
  induction cs generalizing s with
  | nil => exact hq
  | cons c cs ih => exact ih (handleProductCardClick d c s) (toggle_qty d c s hq)

/-- C5 (amended): for every sequence of product-card toggles, all of which
resolve to available catalog entries, starting from the empty store, the
final selection map contains exactly the ids toggled an odd number of times,
each with quantity 1. -/
theorem C5_toggle_parity (d : Data) (cs : List Card)
    (hv : ∀ c ∈ cs, ValidCard d c) (vid : String) :
    ((lookupP (toggleAll d cs emptyStore).selectedProducts vid).isSome = true ↔
      countToggles vid cs % 2 = 1) ∧
    (∀ p, lookupP (toggleAll d cs emptyStore).selectedProducts vid = some p →
      p.quantity = 1) := by
  constructor
  · have h := toggleAll_isSome d cs emptyStore hv vid
    have hnone : lookupP emptyStore.selectedProducts vid = none := rfl
    rw [hnone] at h
    simp only [Option.isSome_none, Bool.false_xor] at h
    rw [h]
    exact decide_eq_true_iff
  · intro p hp
    unfold lookupP at hp
    obtain ⟨e0, he0, he0p⟩ := Option.map_eq_some'.mp hp
    have hq1 := toggleAll_qty d cs emptyStore (by intro e he; cases he) e0
      (List.mem_of_find?_eq_some he0)
    rw [← he0p]
    exact hq1

/-- C5 witness: toggling the available independent accessory `b1` three times
leaves it selected with quantity 1. -/
theorem C5_toggle_parity_witness :
    ((lookupP (toggleAll exDataIndep [exCardB1, exCardB1, exCardB1]
        emptyStore).selectedProducts "b1").isSome = true ↔
      countToggles "b1" [exCardB1, exCardB1, exCardB1] % 2 = 1) ∧
    (∀ p, lookupP (toggleAll exDataIndep [exCardB1, exCardB1, exCardB1]
        emptyStore).selectedProducts "b1" = some p → p.quantity = 1) :=
  C5_toggle_parity exDataIndep [exCardB1, exCardB1, exCardB1]
    (by intro c hc; fin_cases hc <;> (unfold ValidCard; decide)) "b1"

/-- C5 counterexample: a card whose id resolves nowhere is toggled once (an
odd count), yet the store does not contain it, so the claim as stated fails
for sequences that include unknown ids. -/
theorem C5_toggle_parity_counterexample :
    ¬ (((lookupP (toggleAll exDataIndep [exCardUnknown] emptyStore).selectedProducts
          "zz").isSome = true) ↔ countToggles "zz" [exCardUnknown] % 2 = 1) := by
  decide

theorem stepSubmit_issue (p : Phase) (e : SubmitEv) :
    (stepSubmit p e).2 = if isAcceptedClick p e then 1 else 0 := by
  cases p <;> cases e <;> first
    | rfl
    | (rename_i b; cases b <;> rfl)

theorem issued_eq_accepted (evs : List SubmitEv) :
    ∀ p, issuedCount p evs = acceptedCount p evs := by
  induction evs with
  | nil => intro p; rfl
  | cons e es ih =>
    intro p
    show (stepSubmit p e).2 + issuedCount (stepSubmit p e).1 es =
      (if isAcceptedClick p e then 1 else 0) + acceptedCount (stepSubmit p e).1 es
    rw [stepSubmit_issue, ih]

/-- C10: while the mutating request is in flight the control is disabled, so
a click is not delivered and changes nothing; a mutating request is only ever
issued from the idle phase (hence never while one is in flight, and at most
one is in flight per widget instance); along any event trace the number of
mutating requests equals the number of accepted submissions; and
`handleAddToCart` itself sends exactly one mutating request per accepted
(non-empty) submission and none for a rejected one. -/
theorem C10_single_mutating_request :
    (∀ (p : Phase) (b : Bool), busyOf p = true →
      stepSubmit p (SubmitEv.click b) = (p, 0)) ∧
    (∀ (p : Phase) (e : SubmitEv), 0 < (stepSubmit p e).2 →
      mutatingInFlight p = false ∧ mutatingInFlight (stepSubmit p e).1 = true ∧
      (stepSubmit p e).2 = 1 ∧ busyOf (stepSubmit p e).1 = true) ∧
    (∀ (p : Phase), mutatingInFlight p = true → busyOf p = true) ∧
    (∀ evs : List SubmitEv, issuedCount Phase.idle evs = acceptedCount Phase.idle evs) ∧
    (∀ (o : Option String) (t : String) (s : Store) (r : AddResponse),
      buildItems s ≠ [] → (handleAddToCart o t s r).mutatingCalls = 1) ∧
    (∀ (o : Option String) (t : String) (s : Store) (r : AddResponse),
      buildItems s = [] → (handleAddToCart o t s r).mutatingCalls = 0) := by
  refine ⟨?_, ?_, ?_, ?_, ?_, ?_⟩
  · intro p b h
    cases p <;> first
      | exact absurd h (by decide)
      | (cases b <;> rfl)
  · intro p e h
    cases p <;> cases e <;> first
      | exact absurd h (by decide)
      | (rename_i b; cases b <;> first
          | exact absurd h (by decide)
          | exact ⟨rfl, rfl, rfl, rfl⟩)
  · intro p h
    cases p <;> first
      | rfl
      | exact absurd h (by decide)
  · intro evs
    exact issued_eq_accepted evs Phase.idle
  · intro o t s r hne
    unfold handleAddToCart
    simp [buildItems_isEmpty_false hne]
    split <;> rfl
  · intro o t s r hemp
    unfold handleAddToCart
    simp [hemp, List.isEmpty_nil]

/-- C10 witness: a click while the add request is in flight is ignored, and a
concrete non-empty submission issues exactly one mutating request. -/
theorem C10_single_mutating_request_witness :
    stepSubmit Phase.awaitAdd (SubmitEv.click true) = (Phase.awaitAdd, 0) ∧
    (handleAddToCart none "Add All to Cart" exStoreIndep exResponseOk).mutatingCalls = 1 :=
  ⟨C10_single_mutating_request.1 Phase.awaitAdd true rfl,
   C10_single_mutating_request.2.2.2.2.1 none "Add All to Cart" exStoreIndep exResponseOk
     (by decide)⟩

theorem mem_removeAccessoryCards_products (s : Store) (h : String) (e : String × Product) :
    e ∈ (removeAccessoryCards s h).selectedProducts ↔
      e ∈ s.selectedProducts ∧ ¬ ∃ g ∈ s.accessoryGrid, g.1 = h ∧ g.2 = e.1 := by
  unfold removeAccessoryCards
  constructor
  · intro hmem
    obtain ⟨hm, hcond⟩ := List.mem_filter.mp hmem
    rw [Bool.not_eq_true'] at hcond
    refine ⟨hm, ?_⟩
    rintro ⟨g, hg, hg1, hg2⟩
    have hmm : e.1 ∈ (List.filter (fun g => g.1 == h) s.accessoryGrid).map (·.2) :=
      List.mem_map.mpr ⟨g, List.mem_filter.mpr ⟨hg, by simp [hg1]⟩, hg2⟩
    have hct : ((List.filter (fun g => g.1 == h) s.accessoryGrid).map (·.2)).contains e.1
        = true := List.elem_iff.mpr hmm
    rw [hct] at hcond
    cases hcond
  · rintro ⟨hm, hno⟩
    refine List.mem_filter.mpr ⟨hm, ?_⟩
    rw [Bool.not_eq_true']
    apply Bool.eq_false_iff.mpr
    intro hc
    obtain ⟨g, hgf, hg2⟩ := List.mem_map.mp (List.elem_iff.mp hc)
    obtain ⟨hg, hgh⟩ := List.mem_filter.mp hgf
    exact hno ⟨g, hg, beq_iff_eq.mp hgh, hg2⟩

theorem mem_removeAccessoryCards_grid (s : Store) (h : String) (g : String × String) :
    g ∈ (removeAccessoryCards s h).accessoryGrid ↔ g ∈ s.accessoryGrid ∧ g.1 ≠ h := by
  unfold removeAccessoryCards
  simp [List.mem_filter, bne_iff_ne]

theorem foldRemove_spec (hs : List String) (s : Store) :
    (hs.foldl removeAccessoryCards s).activeHarnessModel = s.activeHarnessModel ∧
    (hs.foldl removeAccessoryCards s).modelGrid = s.modelGrid ∧
    (hs.foldl removeAccessoryCards s).activeAccessories = s.activeAccessories ∧
    (∀ g, g ∈ (hs.foldl removeAccessoryCards s).accessoryGrid ↔
      g ∈ s.accessoryGrid ∧ g.1 ∉ hs) ∧
    (∀ e, e ∈ (hs.foldl removeAccessoryCards s).selectedProducts ↔
      e ∈ s.selectedProducts ∧ ∀ h ∈ hs, ¬ ∃ g ∈ s.accessoryGrid, g.1 = h ∧ g.2 = e.1) := by
  induction hs generalizing s with
  | nil => simp
  | cons h hs ih =>
    obtain ⟨i1, i2, i3, i4, i5⟩ := ih (removeAccessoryCards s h)
    refine ⟨by rw [List.foldl_cons, i1]; rfl, by rw [List.foldl_cons, i2]; rfl,
      by rw [List.foldl_cons, i3]; rfl, ?_, ?_⟩
    · intro g
      rw [List.foldl_cons, i4 g, mem_removeAccessoryCards_grid]
      constructor
      · rintro ⟨⟨hg, hgh⟩, hgs⟩
        exact ⟨hg, by simp [hgh, hgs]⟩
      · rintro ⟨hg, hnin⟩
        simp only [List.mem_cons, not_or] at hnin
        exact ⟨⟨hg, hnin.1⟩, hnin.2⟩
    · intro e
      rw [List.foldl_cons, i5 e, mem_removeAccessoryCards_products]
      constructor
      · rintro ⟨⟨hmem, hnh⟩, hrest⟩
        refine ⟨hmem, ?_⟩
        intro h' hh'
        rcases List.mem_cons.mp hh' with rfl | hh'
        · exact hnh
        · rintro ⟨g, hg, hg1, hg2⟩
          by_cases hgh : g.1 = h
          · exact hnh ⟨g, hg, hgh, hg2⟩
          · exact hrest h' hh'
              ⟨g, (mem_removeAccessoryCards_grid s h g).mpr ⟨hg, hgh⟩, hg1, hg2⟩
      · rintro ⟨hmem, hall⟩
        refine ⟨⟨hmem, hall h (List.mem_cons_self h hs)⟩, ?_⟩
        intro h' hh'
        rintro ⟨g, hg, hg1, hg2⟩
        obtain ⟨hgs, hgne⟩ := (mem_removeAccessoryCards_grid s h g).mp hg
        exact hall h' (List.mem_cons_of_mem h hh') ⟨g, hgs, hg1, hg2⟩

theorem clearActiveAccessories_spec (s : Store)
    (hw3 : ∀ g ∈ s.accessoryGrid, g.1 ∈ s.activeAccessories) :
    (clearActiveAccessories s).activeHarnessModel = s.activeHarnessModel ∧
    (clearActiveAccessories s).modelGrid = s.modelGrid ∧
    (clearActiveAccessories s).activeAccessories = [] ∧
    (clearActiveAccessories s).accessoryGrid = [] ∧
    (∀ e, e ∈ (clearActiveAccessories s).selectedProducts ↔
      e ∈ s.selectedProducts ∧ ¬ ∃ g ∈ s.accessoryGrid, g.2 = e.1) := by
  obtain ⟨f1, f2, f3, f4, f5⟩ := foldRemove_spec s.activeAccessories s
  refine ⟨f1, f2, rfl, ?_, ?_⟩
  · apply List.eq_nil_iff_forall_not_mem.mpr
    intro g hg
    obtain ⟨hgs, hnin⟩ := (f4 g).mp hg
    exact hnin (hw3 g hgs)
  · intro e
    rw [show (clearActiveAccessories s).selectedProducts =
      (s.activeAccessories.foldl removeAccessoryCards s).selectedProducts from rfl, f5 e]
    constructor
    · rintro ⟨hmem, hall⟩
      refine ⟨hmem, ?_⟩
      rintro ⟨g, hg, hg2⟩
      exact hall g.1 (hw3 g hg) ⟨g, hg, rfl, hg2⟩
    · rintro ⟨hmem, hno⟩
      refine ⟨hmem, ?_⟩
      intro h hh
      rintro ⟨g, hg, hg1, hg2⟩
      exact hno ⟨g, hg, hg2⟩

theorem visChipStep_of_empty (d : Data) (m : String) (s : Store) (h : String)
    (hemp : s.activeAccessories = []) : visChipStep d m s h = s := by
  unfold visChipStep
  cases hfa : findAccessory d h with
  | none => rfl
  | some a =>
    have hc : s.activeAccessories.contains h = false := by rw [hemp]; rfl
    simp only [hc, Bool.and_false, Bool.false_eq_true, if_false]

theorem updateAccessoriesVisibility_of_empty (d : Data) (s : Store)
    (hemp : s.activeAccessories = []) : updateAccessoriesVisibility d s = s := by
  unfold updateAccessoriesVisibility
  cases ham : s.activeHarnessModel with
  | none => rfl
  | some m =>
    show (d.harnessAccessories.map (·.handle)).foldl (visChipStep d m) s = s
    generalize (d.harnessAccessories.map (·.handle)) = hs
    induction hs with
    | nil => rfl
    | cons h hs ih =>
      rw [List.foldl_cons, visChipStep_of_empty d m s h hemp]
      exact ih

theorem mem_clearModelGridSelections (s : Store) (e : String × Product) :
    e ∈ (clearModelGridSelections s).selectedProducts ↔
      e ∈ s.selectedProducts ∧ e.1 ∉ s.modelGrid := by
  unfold clearModelGridSelections
  constructor
  · intro hmem
    obtain ⟨hm, hcond⟩ := List.mem_filter.mp hmem
    rw [Bool.not_eq_true'] at hcond
    refine ⟨hm, fun hin => ?_⟩
    have hct : s.modelGrid.contains e.1 = true := List.elem_iff.mpr hin
    rw [hct] at hcond
    cases hcond
  · rintro ⟨hm, hnin⟩
    refine List.mem_filter.mpr ⟨hm, ?_⟩
    rw [Bool.not_eq_true']
    apply Bool.eq_false_iff.mpr
    intro hc
    exact hnin (List.elem_iff.mp hc)

theorem click_spec (d : Data) (v : String) (s : Store) (hw : Wf d s) :
    (handleHarnessModelChipClick d v s).activeHarnessModel =
      (if s.activeHarnessModel = some v then none else some v) ∧
    (handleHarnessModelChipClick d v s).activeAccessories = [] ∧
    (handleHarnessModelChipClick d v s).accessoryGrid = [] ∧
    (handleHarnessModelChipClick d v s).modelGrid =
      (if s.activeHarnessModel = some v then [] else modelVariantIds d v) ∧
    (∀ e, e ∈ (handleHarnessModelChipClick d v s).selectedProducts ↔
      e ∈ s.selectedProducts ∧ e.1 ∉ s.modelGrid ∧
        ¬ ∃ g ∈ s.accessoryGrid, g.2 = e.1) := by
  obtain ⟨hmo, hW3, hW4, hW5, hW6⟩ := hw
  have hw3' : ∀ g ∈ s.accessoryGrid, g.1 ∈ s.activeAccessories := fun g hg => (hW3 g hg).1
  by_cases hsel : s.activeHarnessModel = some v
  · have hbs : (s.activeHarnessModel == some v) = true := by simp [hsel]
    have hstep : handleHarnessModelChipClick d v s =
        updateAccessoriesVisibility d (clearActiveAccessories
          { clearModelGridSelections s with activeHarnessModel := none, modelGrid := [] }) := by
      unfold handleHarnessModelChipClick
      rw [hbs]
      exact rfl
    obtain ⟨c1, c2, c3, c4, c5⟩ := clearActiveAccessories_spec
      ({ clearModelGridSelections s with activeHarnessModel := none, modelGrid := [] }) hw3'
    have hvis := updateAccessoriesVisibility_of_empty d _ c3
    rw [hstep, hvis]
    refine ⟨by rw [if_pos hsel]; exact c1, c3, c4, by rw [if_pos hsel]; exact c2, ?_⟩
    intro e
    rw [c5 e]
    have hmc := mem_clearModelGridSelections s e
    constructor
    · rintro ⟨hm, hng⟩
      obtain ⟨hms, hnm⟩ := hmc.mp hm
      exact ⟨hms, hnm, hng⟩
    · rintro ⟨hms, hnm, hng⟩
      exact ⟨hmc.mpr ⟨hms, hnm⟩, hng⟩
  · have hbs : (s.activeHarnessModel == some v) = false := beq_eq_false_iff_ne.mpr hsel
    have hstep : handleHarnessModelChipClick d v s =
        updateAccessoriesVisibility d (clearActiveAccessories { clearModelGridSelections s with activeHarnessModel := some v, modelGrid := modelVariantIds d v }) := by
      unfold handleHarnessModelChipClick
      rw [hbs]
      exact rfl
    obtain ⟨c1, c2, c3, c4, c5⟩ := clearActiveAccessories_spec
      ({ clearModelGridSelections s with activeHarnessModel := some v, modelGrid := modelVariantIds d v }) hw3'
    have hvis := updateAccessoriesVisibility_of_empty d _ c3
    rw [hstep, hvis]
    refine ⟨by rw [if_neg hsel]; exact c1, c3, c4, by rw [if_neg hsel]; exact c2, ?_⟩
    intro e
    rw [c5 e]
    have hmc := mem_clearModelGridSelections s e
    constructor
    · rintro ⟨hm, hng⟩
      obtain ⟨hms, hnm⟩ := hmc.mp hm
      exact ⟨hms, hnm, hng⟩
    · rintro ⟨hms, hnm, hng⟩
      exact ⟨hmc.mpr ⟨hms, hnm⟩, hng⟩

theorem wf_empty (d : Data) : Wf d emptyStore := by
  refine ⟨⟨rfl, rfl, rfl⟩, ?_, ?_, ?_, ?_⟩ <;> intro x hx <;> cases hx

theorem wf_click (d : Data) (v : String) (s : Store) (hw : Wf d s) :
    Wf d (handleHarnessModelChipClick d v s) := by
  obtain ⟨s1, s2, s3, s4, s5⟩ := click_spec d v s hw
  obtain ⟨hmo, hW3, hW4, hW5, hW6⟩ := hw
  refine ⟨?_, ?_, ?_, ?_, ?_⟩
  · by_cases hsel : s.activeHarnessModel = some v
    · rw [s1, if_pos hsel]
      exact ⟨s2, by rw [s4, if_pos hsel], s3⟩
    · rw [s1, if_neg hsel]
      rw [s4, if_neg hsel]
  · intro g hg
    rw [s3] at hg
    cases hg
  · intro h hh
    rw [s2] at hh
    cases hh
  · intro h hh
    rw [s2] at hh
    cases hh
  · intro e he
    obtain ⟨hms, hnm, hng⟩ := (s5 e).mp he
    obtain ⟨p1, p2, p3, p4, p5, p6, p7⟩ := hW6 e hms
    refine ⟨fun hty => absurd (p1 hty) hnm, fun hty => ?_, p3, p4, p5, p6, p7⟩
    obtain ⟨g, hg, hg2⟩ := p2 hty
    exact absurd ⟨g, hg, hg2⟩ hng

theorem click_no_model_dep (d : Data) (v : String) (s : Store) (hw : Wf d s) :
    ∀ e ∈ (handleHarnessModelChipClick d v s).selectedProducts,
      e.2.productType ≠ "harness-model" ∧ e.2.productType ≠ "harness-accessory" := by
  obtain ⟨s1, s2, s3, s4, s5⟩ := click_spec d v s hw
  obtain ⟨hmo, hW3, hW4, hW5, hW6⟩ := hw
  intro e he
  obtain ⟨hms, hnm, hng⟩ := (s5 e).mp he
  obtain ⟨p1, p2, _, _, _, _, _⟩ := hW6 e hms
  refine ⟨fun hty => absurd (p1 hty) hnm, fun hty => ?_⟩
  obtain ⟨g, hg, hg2⟩ := p2 hty
  exact absurd ⟨g, hg, hg2⟩ hng

theorem modelVariantIds_sub (d : Data) (m : String) :
    ∀ i ∈ modelVariantIds d m, i ∈ allModelVariantIds d := by
  intro i hi
  unfold modelVariantIds at hi
  unfold allModelVariantIds
  obtain ⟨v, hv, hvid⟩ := List.mem_map.mp hi
  obtain ⟨vs, hvs, hvin⟩ := List.mem_flatten.mp hv
  obtain ⟨ht, hht, hhteq⟩ := List.mem_map.mp hvs
  refine List.mem_map.mpr ⟨v, List.mem_flatten.mpr ⟨vs, ?_, hvin⟩, hvid⟩
  exact List.mem_map.mpr ⟨ht, (List.mem_filter.mp hht).1, hhteq⟩

theorem accVariantIds_sub (d : Data) (h : String) :
    ∀ i ∈ accVariantIds d h, i ∈ allAccVariantIds d := by
  intro i hi
  unfold accVariantIds at hi
  unfold allAccVariantIds
  cases hfa : findAccessory d h with
  | none => rw [hfa] at hi; cases hi
  | some a =>
    rw [hfa] at hi
    obtain ⟨v, hv, hvid⟩ := List.mem_map.mp hi
    have ha : a ∈ d.harnessAccessories := List.mem_of_find?_eq_some hfa
    exact List.mem_map.mpr ⟨v, List.mem_flatten.mpr ⟨a.variants,
      List.mem_map.mpr ⟨a, ha, rfl⟩, hv⟩, hvid⟩

theorem click_indep_preserved (d : Data) (v : String) (s : Store)
    (hd : DataWf d) (hw : Wf d s) :
    ∀ e ∈ s.selectedProducts, e.2.productType = "accessory" →
      e ∈ (handleHarnessModelChipClick d v s).selectedProducts := by
  obtain ⟨s1, s2, s3, s4, s5⟩ := click_spec d v s hw
  obtain ⟨hmo, hW3, hW4, hW5, hW6⟩ := hw
  intro e he hty
  have hind : e.1 ∈ indepIds d := (hW6 e he).2.2.1 hty
  have hdis := hd e.1 hind
  refine (s5 e).mpr ⟨he, ?_, ?_⟩
  · intro hin
    cases ham : s.activeHarnessModel with
    | none =>
      rw [ham] at hmo
      obtain ⟨ha, hmg, hag⟩ := hmo
      rw [hmg] at hin
      cases hin
    | some m =>
      rw [ham] at hmo
      rw [hmo] at hin
      exact hdis.1 (modelVariantIds_sub d m e.1 hin)
  · rintro ⟨g, hg, hg2⟩
    have hgv := (hW3 g hg).2
    rw [hg2] at hgv
    exact hdis.2 (accVariantIds_sub d g.1 e.1 hgv)

/-- C3: every model-chip click — selecting a new model or deselecting the
current one — empties the active accessory-group set, leaves no model-variant
or dependent-accessory selection behind (while adding none), preserves every
independent-accessory selection, and after a second click with any other
model no model-variant or dependent-accessory entry from before it survives
either. -/
theorem C3_model_change_invalidation (d : Data) (v : String) (s : Store)
    (hd : DataWf d) (hw : Wf d s) :
    (handleHarnessModelChipClick d v s).activeAccessories = [] ∧
    (∀ e ∈ (handleHarnessModelChipClick d v s).selectedProducts,
      e.2.productType ≠ "harness-model" ∧ e.2.productType ≠ "harness-accessory") ∧
    (∀ e ∈ s.selectedProducts, e.2.productType = "accessory" →
      e ∈ (handleHarnessModelChipClick d v s).selectedProducts) ∧
    (∀ e ∈ (handleHarnessModelChipClick d v s).selectedProducts,
      e ∈ s.selectedProducts) ∧
    (∀ (v2 : String),
      ∀ e ∈ (handleHarnessModelChipClick d v2
        (handleHarnessModelChipClick d v s)).selectedProducts,
      e.2.productType ≠ "harness-model" ∧ e.2.productType ≠ "harness-accessory") := by
  obtain ⟨s1, s2, s3, s4, s5⟩ := click_spec d v s hw
  exact ⟨s2, click_no_model_dep d v s hw, click_indep_preserved d v s hd hw,
    fun e he => ((s5 e).mp he).1,
    fun v2 e he => click_no_model_dep d v2 _ (wf_click d v s hw) e he⟩

theorem clearModelGridSelections_eq_self (s : Store)
    (h : ∀ e ∈ s.selectedProducts, e.1 ∉ s.modelGrid) : clearModelGridSelections s = s := by
  unfold clearModelGridSelections
  have hf : s.selectedProducts.filter (fun e => !(s.modelGrid.contains e.1))
      = s.selectedProducts := by
    apply List.filter_eq_self.mpr
    intro e he
    rw [Bool.not_eq_true']
    apply Bool.eq_false_iff.mpr
    intro hc
    exact h e he (List.elem_iff.mp hc)
  rw [hf]

theorem clearActiveAccessories_of_nil (s : Store) (h : s.activeAccessories = []) :
    clearActiveAccessories s = s := by
  unfold clearActiveAccessories
  rw [h]
  show { s with activeAccessories := [] } = s
  rw [← h]

theorem updateAccessoriesVisibility_of_none (d : Data) (s : Store)
    (h : s.activeHarnessModel = none) : updateAccessoriesVisibility d s = s := by
  unfold updateAccessoriesVisibility
  rw [h]

theorem click_from_none (d : Data) (v : String) (s : Store) (hw : Wf d s)
    (hnone : s.activeHarnessModel = none) :
    handleHarnessModelChipClick d v s =
      { s with activeHarnessModel := some v, modelGrid := modelVariantIds d v } := by
  obtain ⟨hmo, hW3, hW4, hW5, hW6⟩ := hw
  rw [hnone] at hmo
  obtain ⟨ha, hmg, hag⟩ := hmo
  have hbs : (s.activeHarnessModel == some v) = false := by rw [hnone]; rfl
  unfold handleHarnessModelChipClick
  rw [hbs]
  show updateAccessoriesVisibility d (clearActiveAccessories { clearModelGridSelections s with activeHarnessModel := some v, modelGrid := modelVariantIds d v }) = _
  have h1 : clearModelGridSelections s = s := by
    apply clearModelGridSelections_eq_self
    intro e he hin
    rw [hmg] at hin
    cases hin
  rw [h1]
  rw [clearActiveAccessories_of_nil _ (show ({ s with activeHarnessModel := some v, modelGrid := modelVariantIds d v } : Store).activeAccessories = [] from ha)]
  rw [updateAccessoriesVisibility_of_empty d _ (show ({ s with activeHarnessModel := some v, modelGrid := modelVariantIds d v } : Store).activeAccessories = [] from ha)]

theorem click_deselect_from_none (d : Data) (v : String) (s : Store)
    (hd : DataWf d) (hw : Wf d s) (hnone : s.activeHarnessModel = none) :
    handleHarnessModelChipClick d v
      { s with activeHarnessModel := some v, modelGrid := modelVariantIds d v } = s := by
  obtain ⟨hmo, hW3, hW4, hW5, hW6⟩ := hw
  rw [hnone] at hmo
  obtain ⟨ha, hmg, hag⟩ := hmo
  have hbs : (({ s with activeHarnessModel := some v, modelGrid := modelVariantIds d v } : Store).activeHarnessModel == some v) = true := by
    simp
  unfold handleHarnessModelChipClick
  rw [hbs]
  show updateAccessoriesVisibility d (clearActiveAccessories { clearModelGridSelections ({ s with activeHarnessModel := some v, modelGrid := modelVariantIds d v }) with activeHarnessModel := none, modelGrid := [] }) = s
  have h1 : clearModelGridSelections ({ s with activeHarnessModel := some v, modelGrid := modelVariantIds d v }) = { s with activeHarnessModel := some v, modelGrid := modelVariantIds d v } := by
    apply clearModelGridSelections_eq_self
    intro e he hin
    obtain ⟨p1, p2, p3, p4, _, _, _⟩ := hW6 e he
    rcases p4 with hty | hty | hty
    · have hmem := p1 hty
      rw [hmg] at hmem
      cases hmem
    · obtain ⟨g, hg, _⟩ := p2 hty
      rw [hag] at hg
      cases hg
    · exact (hd e.1 (p3 hty)).1 (modelVariantIds_sub d v e.1 hin)
  rw [h1]
  rw [clearActiveAccessories_of_nil _ (show ({ ({ s with activeHarnessModel := some v, modelGrid := modelVariantIds d v } : Store) with activeHarnessModel := none, modelGrid := [] } : Store).activeAccessories = [] from ha)]
  rw [updateAccessoriesVisibility_of_none d _ rfl]
  rw [show ({ ({ s with activeHarnessModel := some v, modelGrid := modelVariantIds d v } : Store) with activeHarnessModel := none, modelGrid := [] } : Store) = { s with activeHarnessModel := none, modelGrid := [] } from rfl]
  rw [← hnone, ← hmg]

/-- C4 (amended): from a well-formed store with no active model, clicking
model `m` twice is an exact round trip; and from every well-formed store,
independent-accessory entries survive both clicks unchanged. -/
theorem C4_reselect_roundtrip (d : Data) (v : String) (s : Store)
    (hd : DataWf d) (hw : Wf d s) :
    (s.activeHarnessModel = none →
      handleHarnessModelChipClick d v (handleHarnessModelChipClick d v s) = s) ∧
    (∀ e ∈ s.selectedProducts, e.2.productType = "accessory" →
      e ∈ (handleHarnessModelChipClick d v s).selectedProducts ∧
      e ∈ (handleHarnessModelChipClick d v
        (handleHarnessModelChipClick d v s)).selectedProducts) := by
  constructor
  · intro hnone
    rw [click_from_none d v s hw hnone]
    exact click_deselect_from_none d v s hd hw hnone
  · intro e he hty
    have h1 := click_indep_preserved d v s hd hw e he hty
    exact ⟨h1, click_indep_preserved d v _ hd (wf_click d v s hw) e h1 hty⟩

/-- C4 counterexample: from the reachable store where model `m1` is active
and its variant `v1` is selected, clicking `m1` twice does not restore the
store — the variant selection is lost — so the unrestricted round-trip claim
fails. -/
theorem C4_reselect_counterexample :
    handleHarnessModelChipClick exData1 "m1"
      (handleHarnessModelChipClick exData1 "m1" exStoreC4) ≠ exStoreC4 := by
  decide

theorem dataWf_exData2 : DataWf exData2 := by
  unfold DataWf
  decide

theorem wf_exStoreC3 : Wf exData2 exStoreC3 := by
  unfold Wf
  refine ⟨?_, by decide, by decide, by decide, by decide⟩
  show exStoreC3.modelGrid = modelVariantIds exData2 "m1"
  decide

theorem wf_exStoreIndep : Wf exData2 exStoreIndep := by
  unfold Wf
  refine ⟨?_, by decide, by decide, by decide, by decide⟩
  show exStoreIndep.activeAccessories = [] ∧ exStoreIndep.modelGrid = [] ∧
    exStoreIndep.accessoryGrid = []
  exact ⟨rfl, rfl, rfl⟩

/-- C3 witness: switching from `m1` to `m2` on the populated store. -/
theorem C3_model_change_invalidation_witness :
    (handleHarnessModelChipClick exData2 "m2" exStoreC3).activeAccessories = [] ∧
    (∀ e ∈ (handleHarnessModelChipClick exData2 "m2" exStoreC3).selectedProducts,
      e.2.productType ≠ "harness-model" ∧ e.2.productType ≠ "harness-accessory") ∧
    (∀ e ∈ exStoreC3.selectedProducts, e.2.productType = "accessory" →
      e ∈ (handleHarnessModelChipClick exData2 "m2" exStoreC3).selectedProducts) ∧
    (∀ e ∈ (handleHarnessModelChipClick exData2 "m2" exStoreC3).selectedProducts,
      e ∈ exStoreC3.selectedProducts) ∧
    (∀ (v2 : String),
      ∀ e ∈ (handleHarnessModelChipClick exData2 v2
        (handleHarnessModelChipClick exData2 "m2" exStoreC3)).selectedProducts,
      e.2.productType ≠ "harness-model" ∧ e.2.productType ≠ "harness-accessory") :=
  C3_model_change_invalidation exData2 "m2" exStoreC3 dataWf_exData2 wf_exStoreC3

/-- C4 witness: the round trip on a store with one independent accessory and
no active model, with the entry preserved in between. -/
theorem C4_reselect_roundtrip_witness :
    handleHarnessModelChipClick exData2 "m1"
      (handleHarnessModelChipClick exData2 "m1" exStoreIndep) = exStoreIndep ∧
    ("b1", exProductIndep) ∈
      (handleHarnessModelChipClick exData2 "m1" exStoreIndep).selectedProducts :=
  ⟨(C4_reselect_roundtrip exData2 "m1" exStoreIndep dataWf_exData2 wf_exStoreIndep).1 rfl,
   ((C4_reselect_roundtrip exData2 "m1" exStoreIndep dataWf_exData2 wf_exStoreIndep).2
     ("b1", exProductIndep) (by decide) (by decide)).1⟩

theorem wf_groupInv (d : Data) (s : Store) (hw : Wf d s) : GroupInv d s := by
  obtain ⟨hmo, hW3, hW4, hW5, hW6⟩ := hw
  refine ⟨hW5, ?_⟩
  intro e he hty
  obtain ⟨g, hg, hg2⟩ := (hW6 e he).2.1 hty
  exact ⟨g.1, (hW3 g hg).1, hg2 ▸ (hW3 g hg).2⟩

theorem addAccessoryCards_fields (d : Data) (t : Store) (h : String) :
    (addAccessoryCards d t h).activeHarnessModel = t.activeHarnessModel ∧
    (addAccessoryCards d t h).activeAccessories = t.activeAccessories ∧
    (addAccessoryCards d t h).selectedProducts = t.selectedProducts ∧
    (addAccessoryCards d t h).modelGrid = t.modelGrid := by
  unfold addAccessoryCards
  cases findAccessory d h <;> exact ⟨rfl, rfl, rfl, rfl⟩

theorem groupInv_accessoryChip (d : Data) (h : String) (s : Store) (hw : Wf d s)
    (hcl : s.activeAccessories.contains h = true ∨
      groupVisible d s.activeHarnessModel h = true) :
    GroupInv d (handleAccessoryChipClick d h s) := by
  obtain ⟨hmo, hW3, hW4, hW5, hW6⟩ := hw
  unfold handleAccessoryChipClick
  by_cases hc : s.activeAccessories.contains h = true
  · rw [if_pos hc]
    constructor
    · intro h' hh'
      exact hW5 h' (List.mem_filter.mp hh').1
    · intro e he hty
      obtain ⟨hms, hng⟩ := (mem_removeAccessoryCards_products s h e).mp he
      obtain ⟨g, hg, hg2⟩ := (hW6 e hms).2.1 hty
      have hgne : g.1 ≠ h := fun hgh => hng ⟨g, hg, hgh, hg2⟩
      refine ⟨g.1, ?_, hg2 ▸ (hW3 g hg).2⟩
      refine List.mem_filter.mpr ⟨(hW3 g hg).1, ?_⟩
      simpa using hgne
  · rw [if_neg hc]
    have hvg : groupVisible d s.activeHarnessModel h = true := hcl.resolve_left hc
    obtain ⟨a1, a2, a3, a4⟩ := addAccessoryCards_fields d
      ({ s with activeAccessories := s.activeAccessories ++ [h] }) h
    constructor
    · intro h' hh'
      rw [a2] at hh'
      rw [a1]
      rcases List.mem_append.mp hh' with hin | hin
      · exact hW5 h' hin
      · rw [List.mem_singleton.mp hin]
        exact hvg
    · intro e he hty
      rw [a3] at he
      obtain ⟨g, hg, hg2⟩ := (hW6 e he).2.1 hty
      refine ⟨g.1, ?_, hg2 ▸ (hW3 g hg).2⟩
      rw [a2]
      exact List.mem_append_left _ ((hW3 g hg).1)

theorem toggle_mem_products (d : Data) (c : Card) (s : Store) :
    ∀ e ∈ (handleProductCardClick d c s).selectedProducts,
      e ∈ s.selectedProducts ∨ (e.1 = c.variantId ∧ e.2.productType = c.productType) := by
  intro e he
  unfold handleProductCardClick at he
  split at he
  · exact Or.inl he
  · split at he
    · exact Or.inl he
    · split at he
      · unfold eraseKey at he
        exact Or.inl (List.mem_of_mem_filter he)
      · split at he
        · exact Or.inl he
        · rcases List.mem_append.mp he with hin | hin
          · exact Or.inl hin
          · right
            rw [List.mem_singleton.mp hin]
            exact ⟨rfl, rfl⟩

theorem cardClick_fields (d : Data) (c : Card) (s : Store) :
    (handleProductCardClick d c s).activeHarnessModel = s.activeHarnessModel ∧
    (handleProductCardClick d c s).activeAccessories = s.activeAccessories ∧
    (handleProductCardClick d c s).accessoryGrid = s.accessoryGrid ∧
    (handleProductCardClick d c s).modelGrid = s.modelGrid := by
  unfold handleProductCardClick
  split
  · exact ⟨rfl, rfl, rfl, rfl⟩
  · split
    · exact ⟨rfl, rfl, rfl, rfl⟩
    · split
      · exact ⟨rfl, rfl, rfl, rfl⟩
      · split <;> exact ⟨rfl, rfl, rfl, rfl⟩

theorem groupInv_cardClick (d : Data) (c : Card) (s : Store) (hw : Wf d s)
    (hcw : CardWf s c) : GroupInv d (handleProductCardClick d c s) := by
  obtain ⟨hmo, hW3, hW4, hW5, hW6⟩ := hw
  obtain ⟨f1, f2, f3, f4⟩ := cardClick_fields d c s
  constructor
  · intro h hh
    rw [f2] at hh
    rw [f1]
    exact hW5 h hh
  · intro e he hty
    rcases toggle_mem_products d c s e he with hin | ⟨hkey, htyp⟩
    · obtain ⟨g, hg, hg2⟩ := (hW6 e hin).2.1 hty
      refine ⟨g.1, ?_, hg2 ▸ (hW3 g hg).2⟩
      rw [f2]
      exact (hW3 g hg).1
    · have hca : c.productType = "harness-accessory" := by rw [← htyp]; exact hty
      obtain ⟨g, hg, hg2⟩ := hcw.2 hca
      refine ⟨g.1, ?_, ?_⟩
      · rw [f2]
        exact (hW3 g hg).1
      · have hgv := (hW3 g hg).2
        rw [hg2] at hgv
        rw [hkey]
        exact hgv

theorem qty_mem_products (vid : String) (dlt : Int) (s : Store) :
    ∀ e ∈ (handleQuantityChange vid dlt s).selectedProducts,
      ∃ e0 ∈ s.selectedProducts, e.1 = e0.1 ∧ e.2.productType = e0.2.productType := by
  intro e he
  unfold handleQuantityChange at he
  split at he
  · exact ⟨e, he, rfl, rfl⟩
  · dsimp only at he
    split at he
    · unfold eraseKey at he
      exact ⟨e, List.mem_of_mem_filter he, rfl, rfl⟩
    · obtain ⟨e0, he0, heq⟩ := List.mem_map.mp he
      split at heq
      · exact ⟨e0, he0, by rw [← heq], by rw [← heq]⟩
      · exact ⟨e0, he0, by rw [← heq], by rw [← heq]⟩

theorem qtyChange_fields (vid : String) (dlt : Int) (s : Store) :
    (handleQuantityChange vid dlt s).activeHarnessModel = s.activeHarnessModel ∧
    (handleQuantityChange vid dlt s).activeAccessories = s.activeAccessories ∧
    (handleQuantityChange vid dlt s).accessoryGrid = s.accessoryGrid := by
  unfold handleQuantityChange
  split
  · exact ⟨rfl, rfl, rfl⟩
  · dsimp only
    split <;> exact ⟨rfl, rfl, rfl⟩

theorem groupInv_qty (d : Data) (vid : String) (dlt : Int) (s : Store) (hw : Wf d s) :
    GroupInv d (handleQuantityChange vid dlt s) := by
  obtain ⟨hmo, hW3, hW4, hW5, hW6⟩ := hw
  obtain ⟨f1, f2, f3⟩ := qtyChange_fields vid dlt s
  constructor
  · intro h hh
    rw [f2] at hh
    rw [f1]
    exact hW5 h hh
  · intro e he hty
    obtain ⟨e0, he0, hkey, htyp⟩ := qty_mem_products vid dlt s e he
    have hty0 : e0.2.productType = "harness-accessory" := by rw [← htyp]; exact hty
    obtain ⟨g, hg, hg2⟩ := (hW6 e0 he0).2.1 hty0
    refine ⟨g.1, ?_, ?_⟩
    · rw [f2]
      exact (hW3 g hg).1
    · have hgv := (hW3 g hg).2
      rw [hg2] at hgv
      rw [hkey]
      exact hgv

theorem remove_mem_products (vid : String) (s : Store) :
    ∀ e ∈ (handleRemoveFromSummary vid s).selectedProducts, e ∈ s.selectedProducts := by
  intro e he
  unfold handleRemoveFromSummary at he
  split at he
  · exact he
  · unfold eraseKey at he
    exact List.mem_of_mem_filter he

theorem remove_fields (vid : String) (s : Store) :
    (handleRemoveFromSummary vid s).activeHarnessModel = s.activeHarnessModel ∧
    (handleRemoveFromSummary vid s).activeAccessories = s.activeAccessories := by
  unfold handleRemoveFromSummary
  split <;> exact ⟨rfl, rfl⟩

theorem groupInv_remove (d : Data) (vid : String) (s : Store) (hw : Wf d s) :
    GroupInv d (handleRemoveFromSummary vid s) := by
  obtain ⟨hmo, hW3, hW4, hW5, hW6⟩ := hw
  obtain ⟨f1, f2⟩ := remove_fields vid s
  constructor
  · intro h hh
    rw [f2] at hh
    rw [f1]
    exact hW5 h hh
  · intro e he hty
    obtain ⟨g, hg, hg2⟩ := (hW6 e (remove_mem_products vid s e he)).2.1 hty
    refine ⟨g.1, ?_, hg2 ▸ (hW3 g hg).2⟩
    rw [f2]
    exact (hW3 g hg).1

theorem groupInv_clear (d : Data) (s : Store) (hw : Wf d s) :
    GroupInv d (clearAllSelections s) := by
  obtain ⟨hmo, hW3, hW4, hW5, hW6⟩ := hw
  refine ⟨fun h hh => hW5 h hh, ?_⟩
  intro e he
  cases he

theorem submit_store_cases (o : Option String) (t : String) (s : Store) (r : AddResponse) :
    (handleAddToCart o t s r).store = s ∨
    (handleAddToCart o t s r).store = clearAllSelections s := by
  unfold handleAddToCart
  dsimp only
  split
  · exact Or.inl rfl
  · split
    · exact Or.inr rfl
    · exact Or.inl rfl

theorem groupInv_submit (d : Data) (o : Option String) (t : String) (s : Store)
    (r : AddResponse) (hw : Wf d s) : GroupInv d (handleAddToCart o t s r).store := by
  rcases submit_store_cases o t s r with h | h <;> rw [h]
  · exact wf_groupInv d s hw
  · exact groupInv_clear d s hw

theorem groupVisible_characterization (d : Data) (m h : String) (a : HarnessAccessory)
    (hfa : findAccessory d h = some a) :
    groupVisible d (some m) h = true ↔
      (a.harnessTypeHandles = [] ∨ m ∈ a.harnessTypeHandles) := by
  unfold groupVisible
  rw [hfa]
  show isLinked a m = true ↔ _
  unfold isLinked
  rw [Bool.or_eq_true]
  constructor
  · rintro (hemp | hcon)
    · exact Or.inl (List.isEmpty_iff.mp hemp)
    · exact Or.inr (List.elem_iff.mp hcon)
  · rintro (hemp | hcon)
    · exact Or.inl (List.isEmpty_iff.mpr hemp)
    · exact Or.inr (List.elem_iff.mpr hcon)

/-- C6: a dependent-accessory group's chip is visible under an active model
iff its owner-model set (`harnessTypeHandles`) is empty or contains that
model; and after every public operation — model-chip click, accessory-chip
toggle (reachable only on a visible or already-active chip), product-card
toggle (on a card present in the widget), quantity change, summary removal,
clear, and submission — every active group is visible for the current active
model and every dependent-accessory selection belongs to an active group, so
the entries of any group hidden by the transition were removed in that same
transition. -/
theorem C6_visibility_invariant :
    (∀ (d : Data) (m h : String) (a : HarnessAccessory), findAccessory d h = some a →
      (groupVisible d (some m) h = true ↔
        (a.harnessTypeHandles = [] ∨ m ∈ a.harnessTypeHandles))) ∧
    (∀ (d : Data) (v : String) (s : Store), Wf d s →
      GroupInv d (handleHarnessModelChipClick d v s)) ∧
    (∀ (d : Data) (h : String) (s : Store), Wf d s →
      (s.activeAccessories.contains h = true ∨
        groupVisible d s.activeHarnessModel h = true) →
      GroupInv d (handleAccessoryChipClick d h s)) ∧
    (∀ (d : Data) (c : Card) (s : Store), Wf d s → CardWf s c →
      GroupInv d (handleProductCardClick d c s)) ∧
    (∀ (d : Data) (vid : String) (dlt : Int) (s : Store), Wf d s →
      GroupInv d (handleQuantityChange vid dlt s)) ∧
    (∀ (d : Data) (vid : String) (s : Store), Wf d s →
      GroupInv d (handleRemoveFromSummary vid s)) ∧
    (∀ (d : Data) (s : Store), Wf d s → GroupInv d (clearAllSelections s)) ∧
    (∀ (d : Data) (o : Option String) (t : String) (s : Store) (r : AddResponse),
      Wf d s → GroupInv d (handleAddToCart o t s r).store) :=
  ⟨groupVisible_characterization,
   fun d v s hw => wf_groupInv d _ (wf_click d v s hw),
   groupInv_accessoryChip,
   groupInv_cardClick,
   groupInv_qty,
   groupInv_remove,
   groupInv_clear,
   groupInv_submit⟩

/-- C6 witness: the characterization at the concrete group `g1`, and the
invariant after deselecting group `g1` on the populated store. -/
theorem C6_visibility_invariant_witness :
    (groupVisible exData2 (some "m1") "g1" = true ↔
      ((⟨"g1", ["m1"], [⟨"a1", 1500, true⟩]⟩ : HarnessAccessory).harnessTypeHandles = [] ∨
        "m1" ∈ (⟨"g1", ["m1"], [⟨"a1", 1500, true⟩]⟩ : HarnessAccessory).harnessTypeHandles)) ∧
    GroupInv exData2 (handleAccessoryChipClick exData2 "g1" exStoreC3) :=
  ⟨C6_visibility_invariant.1 exData2 "m1" "g1" ⟨"g1", ["m1"], [⟨"a1", 1500, true⟩]⟩ (by decide),
   C6_visibility_invariant.2.2.1 exData2 "g1" exStoreC3 wf_exStoreC3 (Or.inl (by decide))⟩

end SystemBuilder
